import Mathlib

/-!
Verification of the interrupt-safe bounded event queue with debounced
multi-source consumption, as implemented by
`main/09_double_button_isr_queue_task.c` (and the single-button variant
`main/09_button_isr_queue_task.c`).

The dispatcher loop (`button_task`), its per-button debounce filter and its
dispatch switch are translated directly from the C source.  The bounded
event channel itself is provided by the FreeRTOS primitives
(`xQueueCreate` / `xQueueSendFromISR` / `xQueueReceive`), whose code is not
part of this repository; it is modelled from the specification (section 4.1:
fixed-capacity FIFO, non-blocking interrupt-side push that fails with
`QueueFull` when the buffer is full, blocking task-side pop).
-/

namespace FreeRtosButtons

/-- The modulus of `uint32_t` / `TickType_t` arithmetic: `2^32`. -/
def UINT32_MOD : Nat := 4294967296

/-- Wrapping subtraction `a - b` on `uint32_t` tick counts, as computed by
the C expression `now - last_tick` with both operands of type `TickType_t`. -/
def tickSub (a b : Nat) : Nat :=
  (a % UINT32_MOD + (UINT32_MOD - b % UINT32_MOD)) % UINT32_MOD

/-- `#define BUTTON_GPIO1 0` (BOOT button). -/
def BUTTON_GPIO1 : Nat := 0

/-- `#define BUTTON_GPIO2 4` (auxiliary button). -/
def BUTTON_GPIO2 : Nat := 4

/-- Modelled from the spec: the FreeRTOS tick rate (`configTICK_RATE_HZ`)
is configuration outside the repository; the ESP-IDF default of 100 Hz is
used for concrete evaluations. -/
def configTICK_RATE_HZ : Nat := 100

/-- `pdMS_TO_TICKS(ms)`: milliseconds converted to ticks. -/
def pdMS_TO_TICKS (ms : Nat) : Nat := ms * configTICK_RATE_HZ / 1000

/-- `#define DEBOUNCE_TICKS pdMS_TO_TICKS(30)` — the 30 ms quiet interval. -/
def DEBOUNCE_TICKS : Nat := pdMS_TO_TICKS 30

/-- The debounce table of `button_task`: the two locals
`last_tick_btn1` and `last_tick_btn2`. -/
structure DebounceState where
  last_tick_btn1 : Nat
  last_tick_btn2 : Nat
  deriving Repr, DecidableEq

/-- Both locals are initialised to 0 (`TickType_t last_tick_btn1 = 0;`
`TickType_t last_tick_btn2 = 0;`). -/
def initState : DebounceState := ⟨0, 0⟩

/-- The per-button debounce filter in the body of `button_task`, translated
from the C `if io_num == BUTTON_GPIO1 / else if io_num == BUTTON_GPIO2`
chain.  `Q` is the quiet interval (`DEBOUNCE_TICKS` in the source; kept as a
parameter since the tick rate is configuration).  Returns the final value of
the `accepted` flag together with the updated debounce table. -/
def debounceStep (Q : Nat) (s : DebounceState) (io_num now : Nat) :
    Bool × DebounceState :=
  if io_num = BUTTON_GPIO1 then
    if tickSub now s.last_tick_btn1 < Q then (false, s)
    else (true, { s with last_tick_btn1 := now })
  else if io_num = BUTTON_GPIO2 then
    if tickSub now s.last_tick_btn2 < Q then (false, s)
    else (true, { s with last_tick_btn2 := now })
  else (true, s)

/-- Observable consumer-side output: a dispatch call for a recognised
button (the `ESP_LOGI` branches of the switch, carrying the source and the
tick at which the event was processed), or the `ESP_LOGW` warning of the
`default:` branch for an unrecognised source. -/
inductive Output where
  | dispatch (source_id : Nat) (timestamp : Nat)
  | warnUnknown (source_id : Nat)
  deriving Repr, DecidableEq

/-- Whether an output is a dispatch call (as opposed to a warning). -/
def Output.isDispatch : Output → Bool
  | .dispatch _ _ => true
  | .warnUnknown _ => false

/-- The `switch (io_num)` at the end of the loop body: recognised buttons
are dispatched, anything else falls to the `default:` warning. -/
def dispatchSwitch (io_num now : Nat) : Output :=
  if io_num = BUTTON_GPIO1 then Output.dispatch io_num now
  else if io_num = BUTTON_GPIO2 then Output.dispatch io_num now
  else Output.warnUnknown io_num

/-- One full pass of the loop body of `button_task` on a popped event
`io_num` at tick `now`: run the debounce filter; on rejection `continue`
with no output, on acceptance emit the switch's output. -/
def processEvent (Q : Nat) (s : DebounceState) (io_num now : Nat) :
    DebounceState × List Output :=
  let r := debounceStep Q s io_num now
  if r.1 then (r.2, [dispatchSwitch io_num now]) else (r.2, [])

/-- Result of the interrupt-side push. -/
inductive PushResult where
  | Accepted
  | QueueFull
  deriving Repr, DecidableEq

/-- Modelled from the spec: the bounded event channel created by
`xQueueCreate(capacity, sizeof(uint32_t))`, a fixed-capacity FIFO of
`uint32_t` event records (front of `buf` is the oldest element, and
`buf.length` is the occupied count, invariantly at most `capacity`). -/
structure Channel where
  capacity : Nat
  buf : List Nat
  deriving Repr, DecidableEq

/-- A freshly created, empty channel. -/
def Channel.mkEmpty (cap : Nat) : Channel := ⟨cap, []⟩

/-- Modelled from the spec: `xQueueSendFromISR` — the non-blocking
interrupt-context push.  Appends at the back when a slot is free and
signals `Accepted`; when the occupied count equals the capacity it fails
fast with `QueueFull`, leaving the channel unchanged. -/
def try_push_from_interrupt (c : Channel) (e : Nat) : PushResult × Channel :=
  if c.buf.length < c.capacity then
    (PushResult.Accepted, { c with buf := c.buf ++ [e] })
  else
    (PushResult.QueueFull, c)

/-- Modelled from the spec: `xQueueReceive` — the blocking task-context pop.
Removes and returns the oldest element; `none` models the channel being
empty (the caller remains blocked / times out). -/
def pop_blocking (c : Channel) : Option (Nat × Channel) :=
  match c.buf with
  | [] => none
  | e :: rest => some (e, { c with buf := rest })

/-- An interleaving step: an interrupt-side push of an event, or a
consumer-side pop. -/
inductive Op where
  | push (e : Nat)
  | pop
  deriving Repr, DecidableEq

/-- Outcome of running an interleaving of pushes and pops: the final
channel, the values delivered to the consumer in delivery order, and how
many pushes found the channel full. -/
structure RunResult where
  chan : Channel
  popped : List Nat
  drops : Nat
  deriving Repr, DecidableEq

/-- Run an interleaving of pushes and pops against a channel.  A pop on an
empty channel delivers nothing (the consumer just stays blocked). -/
def runOps (c : Channel) : List Op → RunResult
  | [] => ⟨c, [], 0⟩
  | Op.push e :: rest =>
    let pr := try_push_from_interrupt c e
    let r := runOps pr.2 rest
    { r with drops := (if pr.1 = PushResult.QueueFull then 1 else 0) + r.drops }
  | Op.pop :: rest =>
    match pop_blocking c with
    | none => runOps c rest
    | some (e, c2) =>
      let r := runOps c2 rest
      { r with popped := e :: r.popped }

/-- The events pushed by an interleaving, in push order. -/
def pushedList : List Op → List Nat
  | [] => []
  | Op.push e :: rest => e :: pushedList rest
  | Op.pop :: rest => pushedList rest

/-- Whole-system state: the shared channel, the dispatcher's debounce
table, the drop counter of the spec's drop-and-count policy, and the
outputs emitted so far. -/
structure SysState where
  chan : Channel
  deb : DebounceState
  drop_count : Nat
  outs : List Output
  deriving Repr, DecidableEq

/-- `button_isr_handler`: push the GPIO number from interrupt context.
Modelled from the spec: the drop counter of the drop-and-count policy (the
C handler itself discards the `xQueueSendFromISR` result). -/
def isrPush (st : SysState) (gpio : Nat) : SysState :=
  let pr := try_push_from_interrupt st.chan gpio
  { st with
    chan := pr.2
    drop_count := st.drop_count + (if pr.1 = PushResult.QueueFull then 1 else 0) }

/-- One iteration of `button_task` at tick `now` (`xTaskGetTickCount`
returning `now`): pop the oldest event if any and process it. -/
def taskStep (Q : Nat) (st : SysState) (now : Nat) : SysState :=
  match pop_blocking st.chan with
  | none => st
  | some (io, c2) =>
    let r := processEvent Q st.deb io now
    { st with chan := c2, deb := r.1, outs := st.outs ++ r.2 }

/-- Run the dispatcher over a trace of popped events `(io_num, now)`,
recording for each event the debounce decision (`accepted` flag). -/
def runTrace (Q : Nat) (s : DebounceState) :
    List (Nat × Nat) → DebounceState × List (Nat × Nat × Bool)
  | [] => (s, [])
  | (io, now) :: rest =>
    let r := debounceStep Q s io now
    let t := runTrace Q r.2 rest
    (t.1, (io, now, r.1) :: t.2)

/-- The events of a trace that belong to source `g`. -/
def sourceEvents (g : Nat) : List (Nat × Nat) → List (Nat × Nat)
  | [] => []
  | (io, now) :: rest =>
    if io = g then (io, now) :: sourceEvents g rest else sourceEvents g rest

/-- The debounce decisions recorded for source `g`, in order. -/
def decisionsFor (g : Nat) : List (Nat × Nat × Bool) → List Bool
  | [] => []
  | (io, _, f) :: rest =>
    if io = g then f :: decisionsFor g rest else decisionsFor g rest

/-- The successive debounce-table states along a trace of popped events. -/
def stateTrace (Q : Nat) (s : DebounceState) :
    List (Nat × Nat) → List DebounceState
  | [] => []
  | (io, now) :: rest =>
    let s2 := (debounceStep Q s io now).2
    s2 :: stateTrace Q s2 rest

/-- Boolean test that a list of naturals is non-decreasing. -/
def nonDecr : List Nat → Bool
  | [] => true
  | [_] => true
  | a :: b :: rest => decide (a ≤ b) && nonDecr (b :: rest)

/-- On tick counts that have not wrapped past each other, the wrapping
`uint32_t` subtraction agrees with plain subtraction. -/
lemma tickSub_eq (a b : Nat) (hle : b ≤ a) (hlt : a - b < UINT32_MOD) :
    tickSub a b = a - b := by
  unfold tickSub UINT32_MOD at *
  omega

/-- An event from a source that is neither configured button leaves the
`accepted` flag at `true` and the debounce table untouched. -/
lemma debounceStep_unknown (Q : Nat) (s : DebounceState) (io now : Nat)
    (h1 : io ≠ BUTTON_GPIO1) (h2 : io ≠ BUTTON_GPIO2) :
    debounceStep Q s io now = (true, s) := by
  simp [debounceStep, h1, h2]

/-- Events not from button 1 never change `last_tick_btn1`. -/
lemma debounceStep_last1_of_ne (Q : Nat) (s : DebounceState) (io now : Nat)
    (h : io ≠ BUTTON_GPIO1) :
    ((debounceStep Q s io now).2).last_tick_btn1 = s.last_tick_btn1 := by
  unfold debounceStep
  split_ifs <;> simp_all

/-- Events not from button 2 never change `last_tick_btn2`. -/
lemma debounceStep_last2_of_ne (Q : Nat) (s : DebounceState) (io now : Nat)
    (h : io ≠ BUTTON_GPIO2) :
    ((debounceStep Q s io now).2).last_tick_btn2 = s.last_tick_btn2 := by
  unfold debounceStep
  split_ifs <;> simp_all

/-- The decision on a button-1 event, and the resulting `last_tick_btn1`,
depend only on `last_tick_btn1`. -/
lemma debounceStep_b1_congr (Q : Nat) (s t : DebounceState) (now : Nat)
    (h : s.last_tick_btn1 = t.last_tick_btn1) :
    (debounceStep Q s BUTTON_GPIO1 now).1 = (debounceStep Q t BUTTON_GPIO1 now).1 ∧
    ((debounceStep Q s BUTTON_GPIO1 now).2).last_tick_btn1 =
      ((debounceStep Q t BUTTON_GPIO1 now).2).last_tick_btn1 := by
  simp only [debounceStep, if_pos rfl, h]
  split_ifs <;> simp [h]

/-- The decision on a button-2 event, and the resulting `last_tick_btn2`,
depend only on `last_tick_btn2`. -/
lemma debounceStep_b2_congr (Q : Nat) (s t : DebounceState) (now : Nat)
    (h : s.last_tick_btn2 = t.last_tick_btn2) :
    (debounceStep Q s BUTTON_GPIO2 now).1 = (debounceStep Q t BUTTON_GPIO2 now).1 ∧
    ((debounceStep Q s BUTTON_GPIO2 now).2).last_tick_btn2 =
      ((debounceStep Q t BUTTON_GPIO2 now).2).last_tick_btn2 := by
  have hne : BUTTON_GPIO2 ≠ BUTTON_GPIO1 := by decide
  simp only [debounceStep, if_neg hne, if_pos rfl, h]
  split_ifs <;> simp [h]

/-- A rejected event leaves the whole debounce table unchanged. -/
lemma debounceStep_reject_frame (Q : Nat) (s : DebounceState) (io now : Nat)
    (h : (debounceStep Q s io now).1 = false) :
    (debounceStep Q s io now).2 = s := by
  unfold debounceStep at *
  split_ifs at h ⊢ <;> simp_all

/-- A push on a channel whose occupied count equals its capacity fails
with `QueueFull` and returns the channel unchanged. -/
lemma try_push_full (c : Channel) (e : Nat) (h : c.buf.length = c.capacity) :
    try_push_from_interrupt c e = (PushResult.QueueFull, c) := by
  unfold try_push_from_interrupt
  rw [if_neg (by omega)]

/-- C3: pushing into a channel whose occupied count equals its capacity
returns `QueueFull` and leaves the channel contents unchanged; in
particular, on a channel of capacity 2, three consecutive pushes with no
intervening pop yield `Accepted`, `Accepted`, `QueueFull`. -/
theorem C3_push_full_queue :
    (∀ (c : Channel) (e : Nat), c.buf.length = c.capacity →
      try_push_from_interrupt c e = (PushResult.QueueFull, c)) ∧
    ((try_push_from_interrupt (Channel.mkEmpty 2) 10).1 = PushResult.Accepted ∧
     (try_push_from_interrupt (try_push_from_interrupt (Channel.mkEmpty 2) 10).2 20).1 =
       PushResult.Accepted ∧
     (try_push_from_interrupt
        (try_push_from_interrupt (try_push_from_interrupt (Channel.mkEmpty 2) 10).2 20).2
        30).1 = PushResult.QueueFull ∧
     (try_push_from_interrupt
        (try_push_from_interrupt (try_push_from_interrupt (Channel.mkEmpty 2) 10).2 20).2
        30).2 =
       (try_push_from_interrupt (try_push_from_interrupt (Channel.mkEmpty 2) 10).2 20).2) := by
  constructor
  · exact fun c e h => try_push_full c e h
  · exact ⟨by decide, by decide, by decide, by decide⟩

/-- Witness for C3: a concrete full channel of capacity 2 rejects a push
and is left unchanged. -/
theorem C3_push_full_queue_witness :
    try_push_from_interrupt ⟨2, [10, 20]⟩ 30 = (PushResult.QueueFull, ⟨2, [10, 20]⟩) :=
  C3_push_full_queue.1 ⟨2, [10, 20]⟩ 30 (by decide)

/-- C4: a rejected (debounced) event leaves the stored last-accepted
timestamps of its own source and of every other source exactly as they
were before the rejection. -/
theorem C4_reject_preserves_table (Q : Nat) (s : DebounceState) (io now : Nat)
    (h : (debounceStep Q s io now).1 = false) :
    ((debounceStep Q s io now).2).last_tick_btn1 = s.last_tick_btn1 ∧
    ((debounceStep Q s io now).2).last_tick_btn2 = s.last_tick_btn2 := by
  rw [debounceStep_reject_frame Q s io now h]
  exact ⟨rfl, rfl⟩

/-- Witness for C4: a button-1 event arriving 1 tick after the last
accepted one is rejected and both stored timestamps are unchanged. -/
theorem C4_reject_preserves_table_witness :
    ((debounceStep 3 ⟨5, 9⟩ BUTTON_GPIO1 6).2).last_tick_btn1 =
      (⟨5, 9⟩ : DebounceState).last_tick_btn1 ∧
    ((debounceStep 3 ⟨5, 9⟩ BUTTON_GPIO1 6).2).last_tick_btn2 =
      (⟨5, 9⟩ : DebounceState).last_tick_btn2 :=
  C4_reject_preserves_table 3 ⟨5, 9⟩ BUTTON_GPIO1 6 (by decide)

/-- C7: an event whose source is not a recognised button reaches the
`default:` branch — one warning output, no dispatch, the debounce table
untouched, and the loop body returns normally to block on the queue again
(the condition is non-fatal). -/
theorem C7_unknown_source_warned (Q : Nat) (s : DebounceState) (io now : Nat)
    (h1 : io ≠ BUTTON_GPIO1) (h2 : io ≠ BUTTON_GPIO2) :
    processEvent Q s io now = (s, [Output.warnUnknown io]) := by
  simp only [processEvent, debounceStep_unknown Q s io now h1 h2, if_pos]
  unfold dispatchSwitch
  rw [if_neg h1, if_neg h2]

/-- Witness for C7: a source-7 event produces a warning and leaves the
debounce table unchanged. -/
theorem C7_unknown_source_warned_witness :
    processEvent 3 ⟨5, 9⟩ 7 100 = (⟨5, 9⟩, [Output.warnUnknown 7]) :=
  C7_unknown_source_warned 3 ⟨5, 9⟩ 7 100 (by decide) (by decide)

/-- C9: the per-button last-accepted timestamps are initialised to tick 0,
not to a never-seen marker, so the first event a button ever produces is
rejected whenever it is processed at a tick strictly below the quiet
interval. -/
theorem C9_init_zero_first_event_rejected :
    initState.last_tick_btn1 = 0 ∧ initState.last_tick_btn2 = 0 ∧
    ∀ Q now : Nat, now < Q → now < UINT32_MOD →
      debounceStep Q initState BUTTON_GPIO1 now = (false, initState) ∧
      debounceStep Q initState BUTTON_GPIO2 now = (false, initState) := by
  refine ⟨rfl, rfl, ?_⟩
  intro Q now hQ hM
  have hsub : tickSub now 0 = now := by
    have := tickSub_eq now 0 (Nat.zero_le now) (by omega)
    simpa using this
  constructor
  · simp [debounceStep, initState, hsub, hQ]
  · simp [debounceStep, initState, BUTTON_GPIO1, BUTTON_GPIO2, hsub, hQ]

/-- Witness for C9: with the 30 ms quiet interval (3 ticks at the default
rate), a first-ever button-2 event processed at tick 2 is rejected. -/
theorem C9_init_zero_first_event_rejected_witness :
    debounceStep DEBOUNCE_TICKS initState BUTTON_GPIO2 2 = (false, initState) :=
  (C9_init_zero_first_event_rejected.2.2 DEBOUNCE_TICKS 2 (by decide) (by decide)).2

/-- C10: an event from a source other than GPIO 0 and GPIO 4 bypasses the
debounce filter entirely — the `accepted` flag stays `true` no matter what
the arrival tick or the stored state is, the table is untouched, and the
event reaches the dispatch switch where it hits the warning branch. -/
theorem C10_unknown_source_bypasses_filter (Q : Nat) (s : DebounceState) (io now : Nat)
    (h1 : io ≠ BUTTON_GPIO1) (h2 : io ≠ BUTTON_GPIO2) :
    (debounceStep Q s io now).1 = true ∧
    (debounceStep Q s io now).2 = s ∧
    dispatchSwitch io now = Output.warnUnknown io := by
  rw [debounceStep_unknown Q s io now h1 h2]
  refine ⟨rfl, rfl, ?_⟩
  unfold dispatchSwitch
  rw [if_neg h1, if_neg h2]

/-- Witness for C10: a source-9 event at tick 0 is never filtered and goes
to the warning branch of the switch. -/
theorem C10_unknown_source_bypasses_filter_witness :
    (debounceStep 3 ⟨5, 9⟩ 9 0).1 = true ∧
    (debounceStep 3 ⟨5, 9⟩ 9 0).2 = ⟨5, 9⟩ ∧
    dispatchSwitch 9 0 = Output.warnUnknown 9 :=
  C10_unknown_source_bypasses_filter 3 ⟨5, 9⟩ 9 0 (by decide) (by decide)

/-- C1 counterexample: the code keeps no never-seen marker, so the claim's
never-seen exemption fails.  From the initial table (both timestamps 0,
neither button ever seen), the very first button-1 event, processed at
tick 1, is rejected and the table is left unchanged — while the claim
demands acceptance for a source that has never been seen. -/
theorem C1_never_seen_counterexample :
    initState = ⟨0, 0⟩ ∧
    debounceStep DEBOUNCE_TICKS initState BUTTON_GPIO1 1 = (false, initState) := by
  exact ⟨rfl, by decide⟩

/-- C1 (amended): for a button source, the filter accepts the event and
updates that button's stored timestamp iff `now - last_accepted ≥ Q`, and
rejects it leaving the whole table unchanged otherwise; the stored
timestamps start at tick 0, so a never-seen source enjoys no special
exemption.  The hypotheses say the tick counter has not wrapped around the
32-bit stored values. -/
theorem C1_debounce_accept_iff (Q now : Nat) (s : DebounceState)
    (h1 : s.last_tick_btn1 ≤ now) (h1w : now - s.last_tick_btn1 < UINT32_MOD)
    (h2 : s.last_tick_btn2 ≤ now) (h2w : now - s.last_tick_btn2 < UINT32_MOD) :
    ((debounceStep Q s BUTTON_GPIO1 now).1 = true ↔ Q ≤ now - s.last_tick_btn1) ∧
    debounceStep Q s BUTTON_GPIO1 now =
      (if Q ≤ now - s.last_tick_btn1 then (true, { s with last_tick_btn1 := now })
       else (false, s)) ∧
    ((debounceStep Q s BUTTON_GPIO2 now).1 = true ↔ Q ≤ now - s.last_tick_btn2) ∧
    debounceStep Q s BUTTON_GPIO2 now =
      (if Q ≤ now - s.last_tick_btn2 then (true, { s with last_tick_btn2 := now })
       else (false, s)) := by
  have e1 : tickSub now s.last_tick_btn1 = now - s.last_tick_btn1 :=
    tickSub_eq now s.last_tick_btn1 h1 h1w
  have e2 : tickSub now s.last_tick_btn2 = now - s.last_tick_btn2 :=
    tickSub_eq now s.last_tick_btn2 h2 h2w
  have hne : BUTTON_GPIO2 ≠ BUTTON_GPIO1 := by decide
  simp only [debounceStep, if_pos rfl, if_neg hne, e1, e2]
  refine ⟨?_, ?_, ?_, ?_⟩ <;> split_ifs <;> simp_all <;> omega

/-- Witness for the amended C1: with quiet interval 3, a button-1 event
7 ticks after the last accepted one is accepted. -/
theorem C1_debounce_accept_iff_witness :
    (debounceStep 3 ⟨2, 0⟩ BUTTON_GPIO1 9).1 = true :=
  ((C1_debounce_accept_iff 3 9 ⟨2, 0⟩ (by decide) (by decide) (by decide)
      (by decide)).1).mpr (by decide)

/-- As long as no push is dropped, the values delivered to the consumer
followed by the values still queued are exactly the channel's initial
contents followed by the pushed values, in push order. -/
lemma runOps_fifo (ops : List Op) : ∀ c : Channel, (runOps c ops).drops = 0 →
    (runOps c ops).popped ++ (runOps c ops).chan.buf = c.buf ++ pushedList ops := by
  induction ops with
  | nil => intro c _; simp [runOps, pushedList]
  | cons op rest ih =>
    intro c h
    cases op with
    | push e =>
      by_cases hc : c.buf.length < c.capacity
      · have hp : try_push_from_interrupt c e =
            (PushResult.Accepted, { c with buf := c.buf ++ [e] }) := by
          unfold try_push_from_interrupt
          rw [if_pos hc]
        simp only [runOps, hp] at h ⊢
        simp only [reduceCtorEq, if_false, Nat.zero_add] at h ⊢
        have := ih { c with buf := c.buf ++ [e] } h
        simpa [pushedList] using this
      · have hp : try_push_from_interrupt c e = (PushResult.QueueFull, c) := by
          unfold try_push_from_interrupt
          rw [if_neg hc]
        simp [runOps, hp] at h
    | pop =>
      cases hb : c.buf with
      | nil =>
        have hp : pop_blocking c = none := by
          unfold pop_blocking
          rw [hb]
        simp only [runOps, hp] at h ⊢
        have := ih c h
        simpa [hb, pushedList] using this
      | cons x xs =>
        have hp : pop_blocking c = some (x, { c with buf := xs }) := by
          unfold pop_blocking
          rw [hb]
        simp only [runOps, hp] at h ⊢
        have := ih { c with buf := xs } h
        simp only [pushedList, hb]
        simpa using this

/-- C2: for every interleaving of pushes and pops in which no push ever
finds the channel full (occupancy never exceeds capacity), the consumer
receives the pushed events in exactly the order they were pushed: the
delivered values followed by the still-queued values equal the push
sequence. -/
theorem C2_fifo_preservation (cap : Nat) (ops : List Op)
    (h : (runOps (Channel.mkEmpty cap) ops).drops = 0) :
    (runOps (Channel.mkEmpty cap) ops).popped ++
      (runOps (Channel.mkEmpty cap) ops).chan.buf = pushedList ops := by
  have := runOps_fifo ops (Channel.mkEmpty cap) h
  simpa [Channel.mkEmpty] using this

/-- Witness for C2: a concrete interleaving on a capacity-2 channel whose
pops deliver 10, 20, 30 in push order. -/
theorem C2_fifo_preservation_witness :
    (runOps (Channel.mkEmpty 2)
        [Op.push 10, Op.push 20, Op.pop, Op.push 30, Op.pop, Op.pop]).popped ++
      (runOps (Channel.mkEmpty 2)
        [Op.push 10, Op.push 20, Op.pop, Op.push 30, Op.pop, Op.pop]).chan.buf =
      pushedList [Op.push 10, Op.push 20, Op.pop, Op.push 30, Op.pop, Op.pop] :=
  C2_fifo_preservation 2 [Op.push 10, Op.push 20, Op.pop, Op.push 30, Op.pop, Op.pop]
    (by decide)

/-- Provided both stored timestamps are at or below the current tick, one
debounce step keeps each stored timestamp between its old value and the
current tick. -/
lemma debounceStep_last_bounds (Q : Nat) (s : DebounceState) (io now : Nat)
    (h1 : s.last_tick_btn1 ≤ now) (h2 : s.last_tick_btn2 ≤ now) :
    (s.last_tick_btn1 ≤ ((debounceStep Q s io now).2).last_tick_btn1 ∧
      ((debounceStep Q s io now).2).last_tick_btn1 ≤ now) ∧
    (s.last_tick_btn2 ≤ ((debounceStep Q s io now).2).last_tick_btn2 ∧
      ((debounceStep Q s io now).2).last_tick_btn2 ≤ now) := by
  unfold debounceStep
  split_ifs <;> simp_all

/-- Unfolding equation for `nonDecr` on a list with two or more elements. -/
lemma nonDecr_cons_cons (a b : Nat) (l : List Nat) :
    nonDecr (a :: b :: l) = (decide (a ≤ b) && nonDecr (b :: l)) := rfl

/-- Strengthened induction for C8: from a table bounded by `n0` and a
non-decreasing tick sequence starting at or after `n0`, both stored
timestamps evolve non-decreasingly along the trace. -/
lemma stateTrace_mono_aux (Q : Nat) :
    ∀ (tr : List (Nat × Nat)) (s : DebounceState) (n0 : Nat),
    s.last_tick_btn1 ≤ n0 → s.last_tick_btn2 ≤ n0 →
    nonDecr (n0 :: tr.map Prod.snd) = true →
    nonDecr (s.last_tick_btn1 ::
      (stateTrace Q s tr).map DebounceState.last_tick_btn1) = true ∧
    nonDecr (s.last_tick_btn2 ::
      (stateTrace Q s tr).map DebounceState.last_tick_btn2) = true := by
  intro tr
  induction tr with
  | nil => intro s n0 _ _ _; exact ⟨rfl, rfl⟩
  | cons p rest ih =>
    obtain ⟨io, now⟩ := p
    intro s n0 hb1 hb2 hnd
    rw [List.map_cons, nonDecr_cons_cons, Bool.and_eq_true, decide_eq_true_eq] at hnd
    have hstep := debounceStep_last_bounds Q s io now
      (le_trans hb1 hnd.1) (le_trans hb2 hnd.1)
    have ihc := ih (debounceStep Q s io now).2 now hstep.1.2 hstep.2.2 hnd.2
    constructor
    · rw [show stateTrace Q s ((io, now) :: rest) =
            (debounceStep Q s io now).2 ::
              stateTrace Q (debounceStep Q s io now).2 rest from rfl,
          List.map_cons, nonDecr_cons_cons, Bool.and_eq_true, decide_eq_true_eq]
      exact ⟨hstep.1.1, ihc.1⟩
    · rw [show stateTrace Q s ((io, now) :: rest) =
            (debounceStep Q s io now).2 ::
              stateTrace Q (debounceStep Q s io now).2 rest from rfl,
          List.map_cons, nonDecr_cons_cons, Bool.and_eq_true, decide_eq_true_eq]
      exact ⟨hstep.2.1, ihc.2⟩

/-- C8: starting from the initial table, if the ticks supplied to the
successive debounce checks are non-decreasing, then each button's stored
last-accepted timestamp is non-decreasing across every step of the
dispatcher loop. -/
theorem C8_last_accepted_monotone (Q : Nat) (tr : List (Nat × Nat))
    (h : nonDecr (tr.map Prod.snd) = true) :
    nonDecr (initState.last_tick_btn1 ::
      (stateTrace Q initState tr).map DebounceState.last_tick_btn1) = true ∧
    nonDecr (initState.last_tick_btn2 ::
      (stateTrace Q initState tr).map DebounceState.last_tick_btn2) = true := by
  apply stateTrace_mono_aux Q tr initState 0 (Nat.le_refl 0) (Nat.le_refl 0)
  cases hm : tr.map Prod.snd with
  | nil => rfl
  | cons a l =>
    rw [nonDecr_cons_cons, Bool.and_eq_true, decide_eq_true_eq]
    rw [hm] at h
    exact ⟨Nat.zero_le a, h⟩

/-- Witness for C8: a concrete trace with non-decreasing ticks whose
stored timestamps evolve non-decreasingly. -/
theorem C8_last_accepted_monotone_witness :
    nonDecr (initState.last_tick_btn1 ::
      (stateTrace 3 initState [(0, 5), (4, 6), (0, 9)]).map
        DebounceState.last_tick_btn1) = true ∧
    nonDecr (initState.last_tick_btn2 ::
      (stateTrace 3 initState [(0, 5), (4, 6), (0, 9)]).map
        DebounceState.last_tick_btn2) = true :=
  C8_last_accepted_monotone 3 [(0, 5), (4, 6), (0, 9)] (by decide)

/-- Decision log of a trace step, first component. -/
lemma runTrace_fst_cons (Q : Nat) (s : DebounceState) (io now : Nat)
    (rest : List (Nat × Nat)) :
    (runTrace Q s ((io, now) :: rest)).1 =
      (runTrace Q (debounceStep Q s io now).2 rest).1 := rfl

/-- Decision log of a trace step, second component. -/
lemma runTrace_snd_cons (Q : Nat) (s : DebounceState) (io now : Nat)
    (rest : List (Nat × Nat)) :
    (runTrace Q s ((io, now) :: rest)).2 =
      (io, now, (debounceStep Q s io now).1) ::
        (runTrace Q (debounceStep Q s io now).2 rest).2 := rfl

/-- Restriction keeps an event of the selected source. -/
lemma sourceEvents_cons_self (g now : Nat) (rest : List (Nat × Nat)) :
    sourceEvents g ((g, now) :: rest) = (g, now) :: sourceEvents g rest := by
  simp [sourceEvents]

/-- Restriction drops an event of a different source. -/
lemma sourceEvents_cons_ne (g io now : Nat) (rest : List (Nat × Nat))
    (h : io ≠ g) :
    sourceEvents g ((io, now) :: rest) = sourceEvents g rest := by
  simp [sourceEvents, h]

/-- Decision selection keeps a decision of the selected source. -/
lemma decisionsFor_cons_self (g now : Nat) (f : Bool)
    (log : List (Nat × Nat × Bool)) :
    decisionsFor g ((g, now, f) :: log) = f :: decisionsFor g log := by
  simp [decisionsFor]

/-- Decision selection skips a decision of a different source. -/
lemma decisionsFor_cons_ne (g io now : Nat) (f : Bool)
    (log : List (Nat × Nat × Bool)) (h : io ≠ g) :
    decisionsFor g ((io, now, f) :: log) = decisionsFor g log := by
  simp [decisionsFor, h]

/-- Non-interference for button 1: the decisions recorded for button-1
events in a mixed trace equal those of the trace restricted to button 1,
whenever the two runs start from tables agreeing on `last_tick_btn1`;
moreover the final `last_tick_btn1` values agree. -/
lemma runTrace_restrict_b1 (Q : Nat) :
    ∀ (tr : List (Nat × Nat)) (s t : DebounceState),
    s.last_tick_btn1 = t.last_tick_btn1 →
    decisionsFor BUTTON_GPIO1 (runTrace Q s tr).2 =
      decisionsFor BUTTON_GPIO1 (runTrace Q t (sourceEvents BUTTON_GPIO1 tr)).2 ∧
    ((runTrace Q s tr).1).last_tick_btn1 =
      ((runTrace Q t (sourceEvents BUTTON_GPIO1 tr)).1).last_tick_btn1 := by
  intro tr
  induction tr with
  | nil => intro s t h; exact ⟨rfl, h⟩
  | cons p rest ih =>
    obtain ⟨io, now⟩ := p
    intro s t h
    by_cases hio : io = BUTTON_GPIO1
    · subst hio
      have hc := debounceStep_b1_congr Q s t now h
      have ihc := ih (debounceStep Q s BUTTON_GPIO1 now).2
        (debounceStep Q t BUTTON_GPIO1 now).2 hc.2
      rw [sourceEvents_cons_self, runTrace_snd_cons, runTrace_snd_cons,
        runTrace_fst_cons, runTrace_fst_cons, decisionsFor_cons_self,
        decisionsFor_cons_self, hc.1]
      exact ⟨by rw [ihc.1], ihc.2⟩
    · have hpres := debounceStep_last1_of_ne Q s io now hio
      have ihc := ih (debounceStep Q s io now).2 t (by rw [hpres]; exact h)
      rw [sourceEvents_cons_ne _ _ _ _ hio, runTrace_snd_cons, runTrace_fst_cons,
        decisionsFor_cons_ne _ _ _ _ _ hio]
      exact ihc

/-- Non-interference for button 2, symmetric to button 1. -/
lemma runTrace_restrict_b2 (Q : Nat) :
    ∀ (tr : List (Nat × Nat)) (s t : DebounceState),
    s.last_tick_btn2 = t.last_tick_btn2 →
    decisionsFor BUTTON_GPIO2 (runTrace Q s tr).2 =
      decisionsFor BUTTON_GPIO2 (runTrace Q t (sourceEvents BUTTON_GPIO2 tr)).2 ∧
    ((runTrace Q s tr).1).last_tick_btn2 =
      ((runTrace Q t (sourceEvents BUTTON_GPIO2 tr)).1).last_tick_btn2 := by
  intro tr
  induction tr with
  | nil => intro s t h; exact ⟨rfl, h⟩
  | cons p rest ih =>
    obtain ⟨io, now⟩ := p
    intro s t h
    by_cases hio : io = BUTTON_GPIO2
    · subst hio
      have hc := debounceStep_b2_congr Q s t now h
      have ihc := ih (debounceStep Q s BUTTON_GPIO2 now).2
        (debounceStep Q t BUTTON_GPIO2 now).2 hc.2
      rw [sourceEvents_cons_self, runTrace_snd_cons, runTrace_snd_cons,
        runTrace_fst_cons, runTrace_fst_cons, decisionsFor_cons_self,
        decisionsFor_cons_self, hc.1]
      exact ⟨by rw [ihc.1], ihc.2⟩
    · have hpres := debounceStep_last2_of_ne Q s io now hio
      have ihc := ih (debounceStep Q s io now).2 t (by rw [hpres]; exact h)
      rw [sourceEvents_cons_ne _ _ _ _ hio, runTrace_snd_cons, runTrace_fst_cons,
        decisionsFor_cons_ne _ _ _ _ _ hio]
      exact ihc

/-- Non-interference for a source that is neither button: its events are
always accepted, in a mixed trace and in isolation alike. -/
lemma runTrace_restrict_other (Q g : Nat)
    (hg1 : g ≠ BUTTON_GPIO1) (hg2 : g ≠ BUTTON_GPIO2) :
    ∀ (tr : List (Nat × Nat)) (s t : DebounceState),
    decisionsFor g (runTrace Q s tr).2 =
      decisionsFor g (runTrace Q t (sourceEvents g tr)).2 := by
  intro tr
  induction tr with
  | nil => intro s t; rfl
  | cons p rest ih =>
    obtain ⟨io, now⟩ := p
    intro s t
    by_cases hio : io = g
    · subst hio
      have hs := debounceStep_unknown Q s io now hg1 hg2
      have ht := debounceStep_unknown Q t io now hg1 hg2
      rw [sourceEvents_cons_self, runTrace_snd_cons, runTrace_snd_cons,
        decisionsFor_cons_self, decisionsFor_cons_self, hs, ht]
      exact congrArg (fun l => true :: l) (ih s t)
    · rw [sourceEvents_cons_ne _ _ _ _ hio, runTrace_snd_cons,
        decisionsFor_cons_ne _ _ _ _ _ hio]
      exact ih (debounceStep Q s io now).2 t

/-- The trace of spec scenario C: sources GPIO 0 and GPIO 4 alternating
every 5 ms (ticks at 1 kHz), quiet interval 30 ms. -/
def scenarioC : List (Nat × Nat) :=
  [(0, 0), (4, 5), (0, 10), (4, 15), (0, 20), (4, 25),
   (0, 30), (4, 35), (0, 40), (4, 45), (0, 50), (4, 55)]

/-- C6: the debounce decisions for the events of any one source are the
same in a mixed trace as in the trace restricted to that source alone —
another source's debounce state never suppresses (or admits) its events.
In particular, in scenario C (the two buttons alternating every 5 ms under
a 30 ms quiet interval) each button is filtered exactly as in isolation. -/
theorem C6_sources_independent :
    (∀ (Q g : Nat) (tr : List (Nat × Nat)),
      decisionsFor g (runTrace Q initState tr).2 =
        decisionsFor g (runTrace Q initState (sourceEvents g tr)).2) ∧
    (decisionsFor BUTTON_GPIO1 (runTrace 30 initState scenarioC).2 =
      decisionsFor BUTTON_GPIO1
        (runTrace 30 initState (sourceEvents BUTTON_GPIO1 scenarioC)).2 ∧
     decisionsFor BUTTON_GPIO2 (runTrace 30 initState scenarioC).2 =
      decisionsFor BUTTON_GPIO2
        (runTrace 30 initState (sourceEvents BUTTON_GPIO2 scenarioC)).2) := by
  constructor
  · intro Q g tr
    by_cases hg1 : g = BUTTON_GPIO1
    · subst hg1
      exact (runTrace_restrict_b1 Q tr initState initState rfl).1
    · by_cases hg2 : g = BUTTON_GPIO2
      · subst hg2
        exact (runTrace_restrict_b2 Q tr initState initState rfl).1
      · exact runTrace_restrict_other Q g hg1 hg2 tr initState initState
  · exact ⟨by decide, by decide⟩

/-- C5 counterexample: an event from the unrecognised source 7, dequeued
and debounce-passing (the `accepted` flag ends the filter at `true`),
produces zero dispatch calls — its single output is the warning — whereas
the claim demands exactly one dispatch call for every dequeued,
debounce-passing event. -/
theorem C5_unknown_source_counterexample :
    (debounceStep DEBOUNCE_TICKS initState 7 100).1 = true ∧
    (taskStep DEBOUNCE_TICKS ⟨⟨10, [7]⟩, initState, 0, []⟩ 100).outs.filter
        Output.isDispatch = [] ∧
    (taskStep DEBOUNCE_TICKS ⟨⟨10, [7]⟩, initState, 0, []⟩ 100).outs.length = 1 := by
  exact ⟨by decide, by decide, by decide⟩

/-- C5 (amended): a push that finds the channel full changes nothing but
the drop counter, which it increments by exactly one (in particular the
outputs — hence the dispatch calls — for the dropped event are zero); and
a dequeued, debounce-passing event from a recognised button source yields
exactly one dispatch call carrying its source and processing tick, without
touching the drop counter. -/
theorem C5_drop_and_dispatch_effects :
    (∀ (st : SysState) (g : Nat), st.chan.buf.length = st.chan.capacity →
      isrPush st g = { st with drop_count := st.drop_count + 1 }) ∧
    (∀ (Q : Nat) (st : SysState) (now io : Nat) (c2 : Channel),
      pop_blocking st.chan = some (io, c2) →
      (debounceStep Q st.deb io now).1 = true →
      io = BUTTON_GPIO1 ∨ io = BUTTON_GPIO2 →
      (taskStep Q st now).outs = st.outs ++ [Output.dispatch io now] ∧
      (taskStep Q st now).drop_count = st.drop_count) := by
  constructor
  · intro st g h
    unfold isrPush
    rw [try_push_full st.chan g h]
    rfl
  · intro Q st now io c2 hpop hacc hbtn
    have hpe : (processEvent Q st.deb io now).2 = [dispatchSwitch io now] := by
      simp [processEvent, hacc]
    have hsw : dispatchSwitch io now = Output.dispatch io now := by
      rcases hbtn with hb | hb
      · rw [hb]
        rfl
      · rw [hb]
        rfl
    simp only [taskStep, hpop]
    rw [hpe, hsw]
    refine ⟨?_, ?_⟩ <;> first | rfl | trivial

/-- Witness for the amended C5: a full capacity-1 channel turns a push of
GPIO 0 into a pure drop-counter increment, and a dequeued GPIO 0 event
passing the filter yields exactly the one dispatch call `(0, 100)`. -/
theorem C5_drop_and_dispatch_effects_witness :
    isrPush ⟨⟨1, [3]⟩, initState, 0, []⟩ 0 =
      { (⟨⟨1, [3]⟩, initState, 0, []⟩ : SysState) with drop_count := 0 + 1 } ∧
    (taskStep 3 ⟨⟨10, [0]⟩, initState, 0, []⟩ 100).outs =
      ([] : List Output) ++ [Output.dispatch 0 100] ∧
    (taskStep 3 ⟨⟨10, [0]⟩, initState, 0, []⟩ 100).drop_count = 0 :=
  ⟨C5_drop_and_dispatch_effects.1 ⟨⟨1, [3]⟩, initState, 0, []⟩ 0 (by decide),
   (C5_drop_and_dispatch_effects.2 3 ⟨⟨10, [0]⟩, initState, 0, []⟩ 100 0 ⟨10, []⟩
      (by decide) (by decide) (Or.inl rfl)).1,
   (C5_drop_and_dispatch_effects.2 3 ⟨⟨10, [0]⟩, initState, 0, []⟩ 100 0 ⟨10, []⟩
      (by decide) (by decide) (Or.inl rfl)).2⟩

end FreeRtosButtons
